import Mathlib

/-!
Shallow embedding of the reusable core of the eagle-eye-mcp repository
(pagerduty_mcp_server: utils.py, incidents.py, services.py), together with
theorems about the response normalizer, the incident metadata aggregator,
the relative-time parser, and the error-propagation behaviour of the
service-listing tool.

Python dictionaries are modelled as association lists of (key, value) pairs
with unique keys, insertion-ordered, and Python values by the inductive
type `Value` below.  Machine integers do not overflow in this code
(record counts are small), so `Nat`/`Int` are used directly.
Functions that can raise return `Except`; functions that can crash on
ill-typed records return `Option` (with `none` standing for the raised
`TypeError`/`AttributeError`).
-/

namespace EagleEye

/-- A Python value as it occurs in the API-response dictionaries handled by
this code: strings, (non-negative) integers, lists of values, and nested
dictionaries. -/
inductive Value where
  | vStr : String → Value
  | vNat : Nat → Value
  | vList : List Value → Value
  | vObj : List (String × Value) → Value

/-- A Python dictionary with string keys: an insertion-ordered association
list (well-formed dictionaries have pairwise distinct keys). -/
abbrev Dict := List (String × Value)

/-- Python `d[k]`-style lookup returning `none` when the key is absent
(`d.get(k)` with no default).  The first matching entry is returned; for
well-formed dictionaries keys are unique. -/
def dictGet : Dict → String → Option Value
  | [], _ => none
  | p :: rest, k => if p.1 = k then some p.2 else dictGet rest k

/-- Python `d.get(k, default)`. -/
def dictGetD (d : Dict) (k : String) (v : Value) : Value :=
  (dictGet d k).getD v

/-- Python `d[k] = v`: replace the value in place if the key is present
(keeping its position), else append the new pair at the end.  A Python dict
literal is a chain of such assignments starting from the empty dict, which
is how duplicate keys in a literal resolve to the last value. -/
def dictInsert : Dict → String → Value → Dict
  | [], k, v => [(k, v)]
  | p :: rest, k, v => if p.1 = k then (k, v) :: rest else p :: dictInsert rest k v

/-- Python `d.update(extra)`: assign every pair of `extra` into `d` in
order. -/
def dictUpdate (d : Dict) (extra : Dict) : Dict :=
  extra.foldl (fun acc p => dictInsert acc p.1 p.2) d

/-- The keys of a dictionary, in order. -/
def dictKeys (d : Dict) : List String :=
  d.map Prod.fst

/-- ASCII whitespace as recognized by Python's `str.strip()` and the `\s`
class of the `re` module (space, tab, newline, carriage return, vertical
tab, form feed); the code in this repository only meets ASCII input. -/
def isPySpaceChar (c : Char) : Bool :=
  c == ' ' || c == '\t' || c == '\n' || c == '\r' || c == '\x0b' || c == '\x0c'

/-- Python `s.strip()`: remove leading and trailing whitespace. -/
def pyStrip (s : String) : String :=
  String.mk (((s.toList.dropWhile isPySpaceChar).reverse.dropWhile isPySpaceChar).reverse)

/-- Python `s.startswith(pre)`: `pre` is a prefix of `s` (character by
character). -/
def pyStartsWith (s pre : String) : Bool :=
  List.isPrefixOf pre.toList s.toList

/-- `utils.RESPONSE_LIMIT`. -/
def RESPONSE_LIMIT : Nat := 500

/-- The `results` argument of `api_response_handler`:
`Union[Dict[str, Any], List[Dict[str, Any]]]`. -/
inductive ApiResults where
  | one : Dict → ApiResults
  | many : List Dict → ApiResults

/-- The `isinstance(results, dict)` coercion at the top of
`api_response_handler`: a single mapping becomes a one-element list. -/
def coerceResults : ApiResults → List Dict
  | ApiResults.one d => [d]
  | ApiResults.many l => l

/-- The f-string
`f"Query returned {len(results)} {resource_name}, which exceeds the limit of {limit}"`. -/
def exceedsDescription (n : Nat) (resource_name : String) (limit : Nat) : String :=
  "Query returned " ++ toString n ++ " " ++ resource_name ++
    ", which exceeds the limit of " ++ toString limit

/-- The f-string
`f"Found {len(results)} {'result' if len(results) == 1 else 'results'} for resource type {resource_name}"`. -/
def foundDescription (n : Nat) (resource_name : String) : String :=
  "Found " ++ toString n ++ " " ++ (if n = 1 then "result" else "results") ++
    " for resource type " ++ resource_name

/-- The default metadata dictionary built by `api_response_handler` in the
under-limit branch, before `additional_metadata` is merged in. -/
def defaultMetadata (n : Nat) (resource_name : String) : Dict :=
  [("count", Value.vNat n),
   ("description", Value.vStr (foundDescription n resource_name))]

/-- The `if additional_metadata: metadata.update(additional_metadata)`
step of `api_response_handler`: `None` and the empty mapping are falsy, so
the default metadata is kept; otherwise the extra pairs are assigned into
it. -/
def mergedMetadata (n : Nat) (resource_name : String) (am : Option Dict) : Dict :=
  match am with
  | some l => if l.isEmpty then defaultMetadata n resource_name
      else dictUpdate (defaultMetadata n resource_name) l
  | none => defaultMetadata n resource_name

/-- `utils.api_response_handler` (utils.py lines 20-89).  Raising
`ValidationError` is modelled by `Except.error` carrying the message.
The final dict literal `{"metadata": metadata, f"{resource_name}": results}`
is built by two assignments into an empty dict, so when
`resource_name == "metadata"` the second assignment overwrites the first. -/
def api_response_handler (results : ApiResults) (resource_name : String)
    (limit : Nat) (additional_metadata : Option Dict) : Except String Dict :=
  if resource_name = "" ∨ pyStrip resource_name = "" then
    Except.error "resource_name cannot be empty"
  else
    let rs := coerceResults results
    if rs.length > limit then
      Except.ok
        [("metadata", Value.vObj
            [("count", Value.vNat rs.length),
             ("description", Value.vStr (exceedsDescription rs.length resource_name limit))]),
         ("error", Value.vObj
            [("code", Value.vStr "LIMIT_EXCEEDED"),
             ("message", Value.vStr (exceedsDescription rs.length resource_name limit))])]
    else
      Except.ok (dictInsert (dictInsert [] "metadata"
          (Value.vObj (mergedMetadata rs.length resource_name additional_metadata)))
        resource_name (Value.vList (rs.map Value.vObj)))

/-- Lookup of a field inside the `metadata` entry of an envelope; `none`
when `metadata` is absent or not a dictionary. -/
def envMetadataGet (env : Dict) (k : String) : Option Value :=
  match dictGet env "metadata" with
  | some (Value.vObj m) => dictGet m k
  | _ => none

/-- `incidents.VALID_STATUSES`. -/
def VALID_STATUSES : List String := ["triggered", "acknowledged", "resolved"]

/-- `incidents.AUTORESOLVE_TYPE`. -/
def AUTORESOLVE_TYPE : String := "service_reference"

/-- `status_counts[status] = status_counts.get(status, 0) + 1` on a Python
dict of integer counters: increment in place, or append with value 1. -/
def bumpCount : List (String × Nat) → String → List (String × Nat)
  | [], k => [(k, 1)]
  | p :: rest, k => if p.1 = k then (p.1, p.2 + 1) :: rest else p :: bumpCount rest k

/-- `counts.get(k, 0)` on a Python dict of integer counters. -/
def getCount : List (String × Nat) → String → Nat
  | [], _ => 0
  | p :: rest, k => if p.1 = k then p.2 else getCount rest k

/-- The loop body of `incidents._count_incident_statuses`: read the
`status` field and tally it when it lies in `VALID_STATUSES`. -/
def statusStep (m : List (String × Nat)) (inc : Dict) : List (String × Nat) :=
  match dictGet inc "status" with
  | some (Value.vStr s) => if s ∈ VALID_STATUSES then bumpCount m s else m
  | _ => m

/-- `incidents._count_incident_statuses` (incidents.py lines 285-299):
tally the `status` field of each record, ignoring values outside
`VALID_STATUSES` (a non-string `status` is never in the list, so it is
ignored as well). -/
def _count_incident_statuses (incidents : List Dict) : List (String × Nat) :=
  incidents.foldl statusStep []

/-- Python `incident.get('status') == 'resolved'`: true exactly when the
field is present and is the string `"resolved"`. -/
def statusIsResolved (inc : Dict) : Bool :=
  match dictGet inc "status" with
  | some (Value.vStr s) => s == "resolved"
  | _ => false

/-- The per-record condition of `incidents._count_autoresolved_incidents`
(incidents.py lines 301-314).  `and` short-circuits, so the nested access
`incident.get('last_status_change_by', {}).get('type', '')` only runs when
the status is `"resolved"`; if it runs and `last_status_change_by` holds a
non-dictionary value, Python raises `AttributeError`, modelled by `none`.
A non-string `type` value compares unequal to `AUTORESOLVE_TYPE`. -/
def autoresolvedFlag (inc : Dict) : Option Bool :=
  if statusIsResolved inc then
    match dictGetD inc "last_status_change_by" (Value.vObj []) with
    | Value.vObj d =>
        match dictGetD d "type" (Value.vStr "") with
        | Value.vStr t => some (t == AUTORESOLVE_TYPE)
        | _ => some false
    | _ => none
  else some false

/-- The per-record condition of `incidents._count_no_data_incidents`
(incidents.py lines 316-328).  `incident.get('title', '').startswith(...)`
raises `AttributeError` when `title` holds a non-string value, modelled by
`none`. -/
def noDataFlag (inc : Dict) : Option Bool :=
  match dictGetD inc "title" (Value.vStr "") with
  | Value.vStr t => some (pyStartsWith t "No Data:")
  | _ => none

/-- `sum(1 for incident in incidents if flag(incident))`, evaluated left to
right; the first record on which the flag raises aborts the whole sum. -/
def countFlags (f : Dict → Option Bool) : List Dict → Option Nat
  | [] => some 0
  | inc :: rest =>
    match f inc, countFlags f rest with
    | some b, some n => some ((if b then 1 else 0) + n)
    | _, _ => none

/-- `incidents._count_autoresolved_incidents`. -/
def _count_autoresolved_incidents (incidents : List Dict) : Option Nat :=
  countFlags autoresolvedFlag incidents

/-- `incidents._count_no_data_incidents`. -/
def _count_no_data_incidents (incidents : List Dict) : Option Nat :=
  countFlags noDataFlag incidents

/-- `incidents._calculate_incident_metadata` (incidents.py lines 330-361).
The empty list takes the zero-initialized early return; otherwise the three
helpers run in order and the final `status_counts` is rebuilt over the
fixed vocabulary with absent statuses defaulted to 0. -/
def _calculate_incident_metadata (incidents : List Dict) : Option Dict :=
  if incidents.isEmpty then
    some [("status_counts", Value.vObj (VALID_STATUSES.map (fun s => (s, Value.vNat 0)))),
          ("autoresolve_count", Value.vNat 0),
          ("no_data_count", Value.vNat 0)]
  else
    let sc := _count_incident_statuses incidents
    match _count_autoresolved_incidents incidents with
    | none => none
    | some ac =>
      match _count_no_data_incidents incidents with
      | none => none
      | some nd =>
        some [("status_counts",
                Value.vObj (VALID_STATUSES.map (fun s => (s, Value.vNat (getCount sc s))))),
              ("autoresolve_count", Value.vNat ac),
              ("no_data_count", Value.vNat nd)]

/-- Spec-side predicate: the record's `status` field is present and equals
the string `s`. -/
def hasStatus (s : String) (inc : Dict) : Bool :=
  match dictGet inc "status" with
  | some (Value.vStr t) => t == s
  | _ => false

/-- Spec-side predicate for an autoresolved incident: `status` equals
`"resolved"` and the nested `last_status_change_by.type`, with missing
fields defaulting to the empty string, equals `"service_reference"`. -/
def specAutoresolved (inc : Dict) : Bool :=
  hasStatus "resolved" inc &&
    (match dictGetD inc "last_status_change_by" (Value.vObj []) with
     | Value.vObj d =>
         match dictGetD d "type" (Value.vStr "") with
         | Value.vStr t => t == AUTORESOLVE_TYPE
         | _ => false
     | _ => false)

/-- Spec-side predicate for a "no data" incident: the `title` field, with a
missing title defaulting to the empty string, starts with `"No Data:"`. -/
def specNoData (inc : Dict) : Bool :=
  match dictGetD inc "title" (Value.vStr "") with
  | Value.vStr t => pyStartsWith t "No Data:"
  | _ => false

/-- The two time units recognized by the relative-time pattern
`(\d+)\s+(hour|minute)s?\s+ago`. -/
inductive TimeUnit where
  | hour
  | minute
deriving DecidableEq, Repr

/-- Decimal value of a run of ASCII digits, as computed by Python `int()`
on the matched group. -/
def parseDigits (cs : List Char) : Nat :=
  cs.foldl (fun n c => n * 10 + (c.toNat - 48)) 0

/-- Case-insensitive literal match: strip the word `w` (given in lowercase)
from the front of `cs`, returning the remainder, or `none` when `cs` does
not start with `w` up to ASCII case. -/
def stripCI : List Char → List Char → Option (List Char)
  | [], cs => some cs
  | _ :: _, [] => none
  | w :: ws, c :: cs => if c.toLower == w then stripCI ws cs else none

/-- The regex tail `\s+ago$`: at least one whitespace character, then
`ago` case-insensitively, then the end of the string. -/
def matchSuffixAgo (cs : List Char) : Bool :=
  !(cs.takeWhile isPySpaceChar).isEmpty &&
    (match stripCI ['a', 'g', 'o'] (cs.dropWhile isPySpaceChar) with
     | some [] => true
     | _ => false)

/-- The regex tail `s?\s+ago$` after the unit word: an optional `s` (taking
it greedily is sound because `\s+` cannot start with `s`), then
`\s+ago$`. -/
def matchUnitTail : List Char → Bool
  | [] => false
  | c :: rest => if c.toLower == 's' then matchSuffixAgo rest else matchSuffixAgo (c :: rest)

/-- `re.fullmatch(r"(\d+)\s+(hour|minute)s?\s+ago", s, re.IGNORECASE)`,
returning the integer value of group 1 and the unit of group 2.  The
leading `\d+` must take the maximal digit run (the following `\s` excludes
digits), and the alternation is decided by which literal follows (neither
word is a prefix of the other). -/
def matchRel (s : String) : Option (Nat × TimeUnit) :=
  let cs := s.toList
  let digits := cs.takeWhile Char.isDigit
  let rest1 := cs.dropWhile Char.isDigit
  if digits.isEmpty then none
  else if (rest1.takeWhile isPySpaceChar).isEmpty then none
  else
    let rest2 := rest1.dropWhile isPySpaceChar
    match stripCI ['h', 'o', 'u', 'r'] rest2 with
    | some tail =>
        if matchUnitTail tail then some (parseDigits digits, TimeUnit.hour) else none
    | none =>
      match stripCI ['m', 'i', 'n', 'u', 't', 'e'] rest2 with
      | some tail =>
          if matchUnitTail tail then some (parseDigits digits, TimeUnit.minute) else none
      | none => none

/-- Microseconds in `timedelta(hours=1)` and `timedelta(minutes=1)`;
instants and deltas are modelled in integer microseconds, the resolution of
Python `datetime`. -/
def unitMicros : TimeUnit → Int
  | TimeUnit.hour => 3600000000
  | TimeUnit.minute => 60000000

/-- Zero-padded two-digit decimal field (`%02d`). -/
def pad2 (n : Nat) : String :=
  if n < 10 then "0" ++ toString n else toString n

/-- Zero-padded four-digit decimal field (`%04d`, used for the year). -/
def pad4 (n : Nat) : String :=
  if n < 10 then "000" ++ toString n
  else if n < 100 then "00" ++ toString n
  else if n < 1000 then "0" ++ toString n
  else toString n

/-- Zero-padded six-digit decimal field (`%06d`, used for microseconds). -/
def pad6 (n : Nat) : String :=
  if n < 10 then "00000" ++ toString n
  else if n < 100 then "0000" ++ toString n
  else if n < 1000 then "000" ++ toString n
  else if n < 10000 then "00" ++ toString n
  else if n < 100000 then "0" ++ toString n
  else toString n

/-- Proleptic-Gregorian (year, month, day) of a day number counted from
1970-01-01, the civil-from-days algorithm used by `datetime`'s calendar
arithmetic. -/
def civilFromDays (z : Int) : Int × Nat × Nat :=
  let z2 := z + 719468
  let era := z2.fdiv 146097
  let doe := (z2 - era * 146097).toNat
  let yoe := (doe - doe / 1460 + doe / 36524 - doe / 146096) / 365
  let y := (yoe : Int) + era * 400
  let doy := doe - (365 * yoe + yoe / 4 - yoe / 100)
  let mp := (5 * doy + 2) / 153
  let d := doy - (153 * mp + 2) / 5 + 1
  let m := if mp < 10 then mp + 3 else mp - 9
  (if m ≤ 2 then y + 1 else y, m, d)

/-- Microseconds per day. -/
def MICROS_PER_DAY : Int := 86400000000

/-- The date-and-time part of `datetime.isoformat()` for an aware datetime
whose instant is `instantUS` microseconds since the Unix epoch and whose
timezone is the fixed offset of `offsetMinutes` minutes: the civil fields
of the instant shifted by the offset, formatted
`YYYY-MM-DDTHH:MM:SS[.ffffff]` (fractional part omitted when the
microsecond field is zero). -/
def isoLocalPart (instantUS : Int) (offsetMinutes : Int) : String :=
  let localUS := instantUS + offsetMinutes * 60000000
  let days := localUS.fdiv MICROS_PER_DAY
  let usOfDay := (localUS - days * MICROS_PER_DAY).toNat
  let ymd := civilFromDays days
  let micro := usOfDay % 1000000
  let secOfDay := usOfDay / 1000000
  pad4 ymd.1.toNat ++ "-" ++ pad2 ymd.2.1 ++ "-" ++ pad2 ymd.2.2 ++ "T" ++
    pad2 (secOfDay / 3600) ++ ":" ++ pad2 (secOfDay / 60 % 60) ++ ":" ++ pad2 (secOfDay % 60) ++
    (if micro = 0 then "" else "." ++ pad6 micro)

/-- The UTC-offset suffix of `datetime.isoformat()` for a fixed offset of
`offsetMinutes` minutes: `±HH:MM`. -/
def offsetSuffix (offsetMinutes : Int) : String :=
  (if offsetMinutes < 0 then "-" else "+") ++
    pad2 (offsetMinutes.natAbs / 60) ++ ":" ++ pad2 (offsetMinutes.natAbs % 60)

/-- `datetime.isoformat()` of an aware datetime with a fixed-offset
timezone. -/
def pyIsoformat (instantUS : Int) (offsetMinutes : Int) : String :=
  isoLocalPart instantUS offsetMinutes ++ offsetSuffix offsetMinutes

/-- The fixed offset `timezone(timedelta(hours=-7))` built by the parser,
in minutes. -/
def PDT_OFFSET_MINUTES : Int := -420

/-- `utils.try_convert_relative_time_to_pdt_iso` (utils.py lines 128-159),
with the nondeterministic `datetime.now(timezone.utc)` passed in explicitly
as `nowUS` (microseconds since the Unix epoch).  `None` and the empty
string (falsy) are returned unchanged; a full, case-insensitive match of
`(\d+)\s+(hour|minute)s?\s+ago` yields `now - delta` rendered by
`isoformat()` in the fixed UTC-7 timezone; anything else is returned
unchanged.  (The regex guarantees the unit is `hour` or `minute`, so the
defensive `else` branch of the source is unreachable.) -/
def try_convert_relative_time_to_pdt_iso (nowUS : Int) (t : Option String) : Option String :=
  match t with
  | none => none
  | some s =>
    if s = "" then some s
    else
      match matchRel s with
      | some vu =>
          some (pyIsoformat (nowUS - (vu.1 : Int) * unitMicros vu.2) PDT_OFFSET_MINUTES)
      | none => some s

/-- A Python exception as seen by `handle_api_error` and the `except`
blocks of the tool layer: its class name (`type(e).__name__`), its string
form (`str(e)`), and, when present and not `None`, the text of an attached
HTTP response (`e.response.text`). -/
structure PyExn where
  name : String
  message : String
  response : Option String
deriving DecidableEq, Repr

/-- The error message chosen by `utils.handle_api_error` (utils.py lines
119-123): the full response text when available, else `str(e)`. -/
def errorDetail (e : PyExn) : String :=
  match e.response with
  | some r => r
  | none => e.message

/-- `utils.handle_api_error` (utils.py lines 110-126): logs the error
message and re-raises the original exception unchanged.  The pair returned
here is (logged text, raised exception); nothing is ever returned normally,
so the `Except` component is always `error`. -/
def handle_api_error (e : PyExn) : String × Except PyExn Dict :=
  (errorDetail e, Except.error e)

/-- The structured error dictionary returned by `services.list_services`
from its catch-all `except` block (services.py lines 70-88). -/
def listServicesErrorEnvelope (e : PyExn) : Dict :=
  [("metadata", Value.vObj
      [("count", Value.vNat 0),
       ("description", Value.vStr "An error occurred within list_services while fetching services."),
       ("original_error_type", Value.vStr e.name),
       ("original_error_message", Value.vStr e.message)]),
   ("services", Value.vList []),
   ("error", Value.vObj
      [("code", Value.vStr "LIST_SERVICES_EXCEPTION"),
       ("message", Value.vStr ("Exception directly caught in list_services: "
          ++ e.name ++ " - " ++ e.message))])]

/-- `services.list_services` (services.py lines 18-88), parameterized over
the outcome of the remote call plus per-item `parse_service` projection
(the external collaborators inside its `try` block): on success the parsed
records are normalized with `resource_name='services'`; any exception
raised inside the `try` block is caught and converted into the structured
error envelope instead of being re-raised.  The (dead, since `'services'`
is non-empty) case of `ValidationError` from the normalizer is caught by
the same `except`. -/
def list_services (fetchParsed : Except PyExn (List Dict)) : Except PyExn Dict :=
  match fetchParsed with
  | Except.error e => Except.ok (listServicesErrorEnvelope e)
  | Except.ok parsed =>
    match api_response_handler (ApiResults.many parsed) "services" RESPONSE_LIMIT none with
    | Except.ok env => Except.ok env
    | Except.error m => Except.ok (listServicesErrorEnvelope (PyExn.mk "ValidationError" m none))

/-! Supporting lemmas about the Python-dictionary model. -/

theorem dictGet_insert_self (d : Dict) (k : String) (v : Value) :
    dictGet (dictInsert d k v) k = some v := by
  induction d with
  | nil => simp [dictInsert, dictGet]
  | cons p rest ih =>
    by_cases h : p.1 = k
    · simp [dictInsert, dictGet, h]
    · simp [dictInsert, dictGet, h, ih]

theorem dictGet_insert_ne (d : Dict) (k k2 : String) (v : Value) (h : k2 ≠ k) :
    dictGet (dictInsert d k2 v) k = dictGet d k := by
  induction d with
  | nil => simp [dictInsert, dictGet, h]
  | cons p rest ih =>
    by_cases hp : p.1 = k2
    · simp [dictInsert, dictGet, hp, h, hp ▸ h]
    · simp only [dictInsert, if_neg hp]
      by_cases hk : p.1 = k
      · simp [dictGet, hk]
      · simp [dictGet, hk, ih]

theorem dictGet_eq_none_iff (d : Dict) (k : String) :
    dictGet d k = none ↔ k ∉ dictKeys d := by
  induction d with
  | nil => simp [dictGet, dictKeys]
  | cons p rest ih =>
    by_cases h : p.1 = k
    · simp [dictGet, dictKeys, h]
    · simp [dictGet, dictKeys, h, ih, Ne.symm h]

theorem dictGet_update_absent (extra : Dict) (d : Dict) (k : String)
    (h : dictGet extra k = none) :
    dictGet (dictUpdate d extra) k = dictGet d k := by
  induction extra generalizing d with
  | nil => rfl
  | cons p rest ih =>
    have hp : p.1 ≠ k := by
      intro he
      simp [dictGet, he] at h
    have hr : dictGet rest k = none := by
      simpa [dictGet, hp] using h
    show dictGet (dictUpdate (dictInsert d p.1 p.2) rest) k = dictGet d k
    rw [ih (dictInsert d p.1 p.2) hr, dictGet_insert_ne d k p.1 p.2 hp]

theorem dictGet_update_present (extra : Dict) (d : Dict) (k : String) (v : Value)
    (hnd : (dictKeys extra).Nodup) (h : dictGet extra k = some v) :
    dictGet (dictUpdate d extra) k = some v := by
  induction extra generalizing d with
  | nil => simp [dictGet] at h
  | cons p rest ih =>
    have hnd2 : p.1 ∉ dictKeys rest ∧ (dictKeys rest).Nodup := by
      simpa [dictKeys] using hnd
    show dictGet (dictUpdate (dictInsert d p.1 p.2) rest) k = some v
    by_cases hp : p.1 = k
    · have hv : v = p.2 := by
        simp [dictGet, hp] at h
        exact h.symm
      have hr : dictGet rest k = none := by
        rw [dictGet_eq_none_iff]
        exact hp ▸ hnd2.1
      rw [dictGet_update_absent rest _ k hr, hp, dictGet_insert_self d k p.2, hv]
    · have hr : dictGet rest k = some v := by
        simpa [dictGet, hp] using h
      exact ih (dictInsert d p.1 p.2) hnd2.2 hr

theorem dictInsert_two (rn : String) (h : rn ≠ "metadata") (m v : Value) :
    dictInsert (dictInsert [] "metadata" m) rn v = [("metadata", m), (rn, v)] := by
  simp [dictInsert, Ne.symm h]

theorem try_convert_some_eq (nowUS : Int) (s : String) :
    try_convert_relative_time_to_pdt_iso nowUS (some s)
      = if s = "" then some s
        else match matchRel s with
          | some vu => some (pyIsoformat (nowUS - (vu.1 : Int) * unitMicros vu.2)
              PDT_OFFSET_MINUTES)
          | none => some s := rfl

theorem mergedMetadata_count (n : Nat) (rn : String) (am : Option Dict)
    (hcount : ∀ l, am = some l → dictGet l "count" = none) :
    dictGet (mergedMetadata n rn am) "count" = some (Value.vNat n) := by
  cases am with
  | none => rfl
  | some l =>
    by_cases hl : l.isEmpty
    · simp only [mergedMetadata, if_pos hl]
      rfl
    · simp only [mergedMetadata, if_neg hl]
      rw [dictGet_update_absent l _ "count" (hcount l rfl)]
      rfl

/-! Supporting lemmas about the status tally. -/

theorem getCount_bump (m : List (String × Nat)) (k s : String) :
    getCount (bumpCount m k) s = getCount m s + (if k = s then 1 else 0) := by
  induction m with
  | nil =>
    by_cases h : k = s <;> simp [bumpCount, getCount, h]
  | cons p rest ih =>
    by_cases hp : p.1 = k
    · by_cases hs : p.1 = s
      · simp [bumpCount, getCount, hp, hs, hp ▸ hs, (hp.symm.trans hs)]
      · have : ¬(k = s) := fun he => hs (hp.trans he)
        simp [bumpCount, getCount, hp, hs, this]
    · by_cases hs : p.1 = s
      · have hks : ¬(k = s) := fun he => hp (by rw [hs, he])
        have hsk : ¬(s = k) := fun he => hks he.symm
        simp [bumpCount, getCount, hp, hs, hks, hsk]
      · simp [bumpCount, getCount, hp, hs, ih]

theorem getCount_statusStep (m : List (String × Nat)) (inc : Dict) (s : String)
    (hs : s ∈ VALID_STATUSES) :
    getCount (statusStep m inc) s = getCount m s + (if hasStatus s inc then 1 else 0) := by
  unfold statusStep hasStatus
  cases hdg : dictGet inc "status" with
  | none => simp
  | some v =>
    cases v with
    | vStr t =>
      by_cases ht : t ∈ VALID_STATUSES
      · by_cases hts : t = s <;> simp [ht, hts, hs, getCount_bump]
      · have hne : t ≠ s := fun he => ht (he ▸ hs)
        simp [ht, hne]
    | vNat n => simp
    | vList l => simp
    | vObj o => simp

theorem getCount_foldl_statusStep (l : List Dict) (m : List (String × Nat)) (s : String)
    (hs : s ∈ VALID_STATUSES) :
    getCount (l.foldl statusStep m) s = getCount m s + l.countP (hasStatus s) := by
  induction l generalizing m with
  | nil => simp
  | cons inc rest ih =>
    rw [List.foldl_cons, ih (statusStep m inc), getCount_statusStep m inc s hs,
      List.countP_cons]
    omega

theorem getCount_statuses (l : List Dict) (s : String) (hs : s ∈ VALID_STATUSES) :
    getCount (_count_incident_statuses l) s = l.countP (hasStatus s) := by
  unfold _count_incident_statuses
  rw [getCount_foldl_statusStep l [] s hs]
  simp [getCount]

/-! Supporting lemmas about the per-record counters. -/

theorem countFlags_eq_countP (f : Dict → Option Bool) (g : Dict → Bool) (l : List Dict)
    (h : ∀ inc ∈ l, f inc = some (g inc)) :
    countFlags f l = some (l.countP g) := by
  induction l with
  | nil => rfl
  | cons inc rest ih =>
    have hh := h inc (by simp)
    have hr := ih (fun i hi => h i (by simp [hi]))
    rw [countFlags, hh, hr, List.countP_cons]
    by_cases hg : g inc
    · simp [hg]
      omega
    · simp [hg]

theorem autoresolvedFlag_eq_spec (inc : Dict) (h : (autoresolvedFlag inc).isSome) :
    autoresolvedFlag inc = some (specAutoresolved inc) := by
  have hres : hasStatus "resolved" inc = statusIsResolved inc := rfl
  unfold autoresolvedFlag at h ⊢
  unfold specAutoresolved
  rw [hres]
  by_cases hr : statusIsResolved inc
  · rw [if_pos hr] at h ⊢
    rw [hr]
    cases hlscb : dictGetD inc "last_status_change_by" (Value.vObj []) with
    | vStr t => rw [hlscb] at h; simp at h
    | vNat n => rw [hlscb] at h; simp at h
    | vList l => rw [hlscb] at h; simp at h
    | vObj d =>
      cases hty : dictGetD d "type" (Value.vStr "") with
      | vStr t => simp [hty]
      | vNat n => simp [hty]
      | vList l => simp [hty]
      | vObj o => simp [hty]
  · rw [if_neg hr] at h ⊢
    have : statusIsResolved inc = false := by
      cases hb : statusIsResolved inc
      · rfl
      · exact absurd hb hr
    rw [this]
    rfl

theorem noDataFlag_eq_spec (inc : Dict) (h : (noDataFlag inc).isSome) :
    noDataFlag inc = some (specNoData inc) := by
  unfold noDataFlag at h ⊢
  unfold specNoData
  cases ht : dictGetD inc "title" (Value.vStr "") with
  | vStr t => rfl
  | vNat n => rw [ht] at h; simp at h
  | vList l => rw [ht] at h; simp at h
  | vObj o => rw [ht] at h; simp at h

/-! Claim theorems. -/

/-- C8: for every `results` argument, every `limit` and every
`additional_metadata`, `api_response_handler` raises `ValidationError`
("resource_name cannot be empty") whenever `resource_name` is empty or
consists only of whitespace, and no envelope is produced (the result is the
error alone). -/
theorem c8_empty_resource_name_validation (results : ApiResults) (rn : String)
    (limit : Nat) (am : Option Dict) (h : rn = "" ∨ pyStrip rn = "") :
    api_response_handler results rn limit am
      = Except.error "resource_name cannot be empty" := by
  unfold api_response_handler
  rw [if_pos h]

/-- Witness for C8: the empty and the whitespace-only resource name both
fail with the validation error. -/
theorem c8_empty_resource_name_validation_witness :
    (("" : String) = "" ∨ pyStrip "" = "")
    ∧ api_response_handler (ApiResults.many []) "" 500 none
        = Except.error "resource_name cannot be empty"
    ∧ (("   " : String) = "" ∨ pyStrip "   " = "")
    ∧ api_response_handler (ApiResults.one []) "   " 500 (some [("k", Value.vNat 1)])
        = Except.error "resource_name cannot be empty" :=
  ⟨Or.inl rfl,
   c8_empty_resource_name_validation (ApiResults.many []) "" 500 none (Or.inl rfl),
   Or.inr rfl,
   c8_empty_resource_name_validation (ApiResults.one []) "   " 500
     (some [("k", Value.vNat 1)]) (Or.inr rfl)⟩

/-- C3: for every record list longer than the limit and every valid
resource name, `api_response_handler` returns (without raising) an envelope
whose only keys are `metadata` and `error`: `metadata.count` is the record
count, `metadata.description` states the overflow and the limit,
`error.code` is `"LIMIT_EXCEEDED"` with the same message, and the resource
key is absent. -/
theorem c3_limit_exceeded (R : List Dict) (rn : String) (limit : Nat)
    (am : Option Dict) (hv : ¬(rn = "" ∨ pyStrip rn = ""))
    (hgt : R.length > limit) :
    ∃ env, api_response_handler (ApiResults.many R) rn limit am = Except.ok env
      ∧ dictKeys env = ["metadata", "error"]
      ∧ envMetadataGet env "count" = some (Value.vNat R.length)
      ∧ envMetadataGet env "description"
          = some (Value.vStr ("Query returned " ++ toString R.length ++ " " ++ rn
              ++ ", which exceeds the limit of " ++ toString limit))
      ∧ dictGet env "error"
          = some (Value.vObj [("code", Value.vStr "LIMIT_EXCEEDED"),
              ("message", Value.vStr ("Query returned " ++ toString R.length ++ " " ++ rn
                ++ ", which exceeds the limit of " ++ toString limit))])
      ∧ (rn ≠ "metadata" → rn ≠ "error" → dictGet env rn = none) := by
  unfold api_response_handler
  rw [if_neg hv]
  simp only [coerceResults]
  rw [if_pos hgt]
  refine ⟨_, rfl, rfl, rfl, rfl, rfl, fun h1 h2 => ?_⟩
  simp [dictGet, Ne.symm h1, Ne.symm h2]

/-- Witness for C3: 501 records against the default limit of 500. -/
theorem c3_limit_exceeded_witness :
    (¬(("services" : String) = "" ∨ pyStrip "services" = ""))
    ∧ (List.replicate 501 ([] : Dict)).length > 500
    ∧ (∃ env, api_response_handler (ApiResults.many (List.replicate 501 [])) "services" 500 none
          = Except.ok env
        ∧ dictKeys env = ["metadata", "error"]
        ∧ envMetadataGet env "count" = some (Value.vNat (List.replicate 501 ([] : Dict)).length)
        ∧ envMetadataGet env "description"
            = some (Value.vStr ("Query returned " ++ toString (List.replicate 501 ([] : Dict)).length
                ++ " " ++ "services" ++ ", which exceeds the limit of " ++ toString 500))
        ∧ dictGet env "error"
            = some (Value.vObj [("code", Value.vStr "LIMIT_EXCEEDED"),
                ("message", Value.vStr ("Query returned " ++ toString (List.replicate 501 ([] : Dict)).length
                  ++ " " ++ "services" ++ ", which exceeds the limit of " ++ toString 500))])
        ∧ ("services" ≠ "metadata" → "services" ≠ "error"
            → dictGet env "services" = none)) :=
  ⟨by decide, by rw [List.length_replicate]; omega,
   c3_limit_exceeded (List.replicate 501 []) "services" 500 none (by decide)
     (by rw [List.length_replicate]; omega)⟩

/-- C2 (amended): for every valid resource name OTHER THAN `"metadata"` and
every record list `R` with `len(R) <= limit`, `api_response_handler`
(without extra metadata) returns the envelope whose metadata holds
`count = len(R)` and the description "Found {count} result(s) for resource
type {resource_name}" — with the singular word exactly when the count is 1
— and whose resource key holds exactly `R` in the original order; a single
mapping passed as `results` is handled exactly like the one-element list
containing it.  (For `resource_name = "metadata"` the claim fails; see the
counterexample.) -/
theorem c2_under_limit_envelope (R : List Dict) (rn : String) (limit : Nat)
    (hv : ¬(rn = "" ∨ pyStrip rn = "")) (hmeta : rn ≠ "metadata")
    (hle : R.length ≤ limit) :
    api_response_handler (ApiResults.many R) rn limit none
      = Except.ok [("metadata", Value.vObj
           [("count", Value.vNat R.length),
            ("description", Value.vStr ("Found " ++ toString R.length ++ " "
              ++ (if R.length = 1 then "result" else "results")
              ++ " for resource type " ++ rn))]),
         (rn, Value.vList (R.map Value.vObj))]
    ∧ (∀ d : Dict, api_response_handler (ApiResults.one d) rn limit none
        = api_response_handler (ApiResults.many [d]) rn limit none) := by
  constructor
  · unfold api_response_handler
    rw [if_neg hv]
    simp only [coerceResults]
    rw [if_neg (by omega : ¬(R.length > limit))]
    simp [dictInsert, Ne.symm hmeta, mergedMetadata, defaultMetadata, foundDescription]
  · intro d
    rfl

/-- Witness for C2: two records of resource type `incidents` under the
default limit. -/
theorem c2_under_limit_envelope_witness :
    (¬(("incidents" : String) = "" ∨ pyStrip "incidents" = ""))
    ∧ ("incidents" : String) ≠ "metadata"
    ∧ ([[("id", Value.vStr "a")], [("id", Value.vStr "b")]] : List Dict).length ≤ 500
    ∧ (api_response_handler
          (ApiResults.many [[("id", Value.vStr "a")], [("id", Value.vStr "b")]])
          "incidents" 500 none
        = Except.ok [("metadata", Value.vObj
             [("count", Value.vNat ([[("id", Value.vStr "a")], [("id", Value.vStr "b")]] : List Dict).length),
              ("description", Value.vStr ("Found "
                ++ toString ([[("id", Value.vStr "a")], [("id", Value.vStr "b")]] : List Dict).length ++ " "
                ++ (if ([[("id", Value.vStr "a")], [("id", Value.vStr "b")]] : List Dict).length = 1
                    then "result" else "results")
                ++ " for resource type " ++ "incidents"))]),
           ("incidents", Value.vList (([[("id", Value.vStr "a")], [("id", Value.vStr "b")]] : List Dict).map Value.vObj))]
      ∧ (∀ d : Dict, api_response_handler (ApiResults.one d) "incidents" 500 none
          = api_response_handler (ApiResults.many [d]) "incidents" 500 none)) :=
  ⟨by decide, by decide, by decide,
   c2_under_limit_envelope [[("id", Value.vStr "a")], [("id", Value.vStr "b")]]
     "incidents" 500 (by decide) (by decide) (by decide)⟩

/-- Counterexample to C2 as stated: at the valid resource name
`"metadata"` with the one-record list, the claim demands
`metadata.count = 1`, but the resource key overwrites the metadata key and
the returned envelope carries no `count` field at all. -/
theorem c2_counterexample :
    api_response_handler (ApiResults.many [[]]) "metadata" 500 none
      = Except.ok [("metadata", Value.vList [Value.vObj []])]
    ∧ envMetadataGet [("metadata", Value.vList [Value.vObj []])] "count" = none :=
  ⟨rfl, rfl⟩

/-- C10: for the valid resource name `"metadata"` and any record list
within the limit, the returned dictionary has the single key `metadata`
holding the record list itself, and the documented `count` and
`description` fields are absent from the envelope (for any
`additional_metadata`). -/
theorem c10_metadata_key_collision (R : List Dict) (limit : Nat) (am : Option Dict)
    (hle : R.length ≤ limit) :
    api_response_handler (ApiResults.many R) "metadata" limit am
      = Except.ok [("metadata", Value.vList (R.map Value.vObj))]
    ∧ dictKeys [("metadata", Value.vList (R.map Value.vObj))] = ["metadata"]
    ∧ envMetadataGet [("metadata", Value.vList (R.map Value.vObj))] "count" = none
    ∧ envMetadataGet [("metadata", Value.vList (R.map Value.vObj))] "description" = none := by
  refine ⟨?_, rfl, rfl, rfl⟩
  unfold api_response_handler
  rw [if_neg (by decide)]
  simp only [coerceResults]
  rw [if_neg (by omega : ¬(R.length > limit))]
  simp [dictInsert]

/-- Witness for C10: one record, default limit, no extra metadata. -/
theorem c10_metadata_key_collision_witness :
    ([([("id", Value.vStr "a")] : Dict)].length ≤ 500)
    ∧ (api_response_handler (ApiResults.many [[("id", Value.vStr "a")]]) "metadata" 500 none
        = Except.ok [("metadata", Value.vList ([([("id", Value.vStr "a")] : Dict)].map Value.vObj))]
      ∧ dictKeys [("metadata", Value.vList ([([("id", Value.vStr "a")] : Dict)].map Value.vObj))] = ["metadata"]
      ∧ envMetadataGet [("metadata", Value.vList ([([("id", Value.vStr "a")] : Dict)].map Value.vObj))] "count" = none
      ∧ envMetadataGet [("metadata", Value.vList ([([("id", Value.vStr "a")] : Dict)].map Value.vObj))] "description" = none) :=
  ⟨by decide, c10_metadata_key_collision [[("id", Value.vStr "a")]] 500 none (by decide)⟩

/-- C1 (amended): for every call to `api_response_handler` with a valid
resource name OTHER THAN `"metadata"` and `"error"`, and
`additional_metadata` (when present) not overriding the `count` key, the
returned envelope satisfies: if `error` is present then the record count
exceeded the limit and the resource key is absent, and if `error` is
absent then the resource key is present and the length of the list it
holds equals `metadata.count`.  (For the resource names `"metadata"` and
`"error"` the claim fails; see the counterexample.) -/
theorem c1_envelope_invariant (results : ApiResults) (rn : String) (limit : Nat)
    (am : Option Dict) (hv : ¬(rn = "" ∨ pyStrip rn = ""))
    (hmeta : rn ≠ "metadata") (herr : rn ≠ "error")
    (hcount : ∀ l, am = some l → dictGet l "count" = none) :
    ∃ env, api_response_handler results rn limit am = Except.ok env
      ∧ ((dictGet env "error").isSome
          → (coerceResults results).length > limit ∧ dictGet env rn = none)
      ∧ (dictGet env "error" = none
          → ∃ l, dictGet env rn = some (Value.vList l)
              ∧ envMetadataGet env "count" = some (Value.vNat l.length)) := by
  unfold api_response_handler
  rw [if_neg hv]
  by_cases hgt : (coerceResults results).length > limit
  · rw [if_pos hgt]
    refine ⟨_, rfl, fun _ => ⟨hgt, ?_⟩, fun habs => ?_⟩
    · simp [dictGet, Ne.symm hmeta, Ne.symm herr]
    · simp [dictGet] at habs
  · rw [if_neg hgt]
    rw [dictInsert_two rn hmeta]
    refine ⟨_, rfl, fun hsome => ?_, fun _ => ?_⟩
    · simp [dictGet, Ne.symm herr, herr] at hsome
    · refine ⟨(coerceResults results).map Value.vObj, ?_, ?_⟩
      · simp [dictGet, Ne.symm hmeta]
      · simp [envMetadataGet, dictGet, List.length_map,
          mergedMetadata_count (coerceResults results).length rn am hcount]

/-- Witness for C1: one record of resource type `incidents` with extra
metadata that does not touch `count`. -/
theorem c1_envelope_invariant_witness :
    (¬(("incidents" : String) = "" ∨ pyStrip "incidents" = ""))
    ∧ ("incidents" : String) ≠ "metadata"
    ∧ ("incidents" : String) ≠ "error"
    ∧ (∀ l, (some [("total", Value.vNat 7)] : Option Dict) = some l
        → dictGet l "count" = none)
    ∧ (∃ env, api_response_handler (ApiResults.many [[]]) "incidents" 500
          (some [("total", Value.vNat 7)]) = Except.ok env
        ∧ ((dictGet env "error").isSome
            → (coerceResults (ApiResults.many [[]])).length > 500 ∧ dictGet env "incidents" = none)
        ∧ (dictGet env "error" = none
            → ∃ l, dictGet env "incidents" = some (Value.vList l)
                ∧ envMetadataGet env "count" = some (Value.vNat l.length))) :=
  ⟨by decide, by decide, by decide,
   fun l hl => by injection hl with h; rw [← h]; rfl,
   c1_envelope_invariant (ApiResults.many [[]]) "incidents" 500
     (some [("total", Value.vNat 7)]) (by decide) (by decide) (by decide)
     (fun l hl => by injection hl with h; rw [← h]; rfl)⟩

/-- Counterexample to C1 as stated: at the valid resource name `"error"`
with no records and the default limit, the returned envelope has the
`error` key present (it holds the record list) although the record count
(0) did not exceed the limit (500). -/
theorem c1_counterexample :
    api_response_handler (ApiResults.many []) "error" 500 none
      = Except.ok [("metadata", Value.vObj
           [("count", Value.vNat 0),
            ("description", Value.vStr "Found 0 results for resource type error")]),
         ("error", Value.vList [])]
    ∧ (dictGet [("metadata", Value.vObj
           [("count", Value.vNat 0),
            ("description", Value.vStr "Found 0 results for resource type error")]),
         ("error", Value.vList [])] "error").isSome = true
    ∧ ¬((coerceResults (ApiResults.many [])).length > 500) :=
  ⟨rfl, rfl, by decide⟩

/-- C9 (amended): for every under-limit call with a valid resource name
OTHER THAN `"metadata"` and a non-empty `additional_metadata` mapping (a
Python dict, so with distinct keys), the returned metadata is the default
`{count, description}` mapping merged with `additional_metadata`: every
key of `additional_metadata` — including `count` and `description`
themselves — keeps its `additional_metadata` value, and every other key
keeps its default value.  (For the resource name `"metadata"` the claim
fails; see the counterexample.) -/
theorem c9_additional_metadata_merge (R : List Dict) (rn : String) (limit : Nat)
    (am : Dict) (hv : ¬(rn = "" ∨ pyStrip rn = "")) (hmeta : rn ≠ "metadata")
    (hle : R.length ≤ limit) (hne : am ≠ []) (hnd : (dictKeys am).Nodup) :
    ∃ md, api_response_handler (ApiResults.many R) rn limit (some am)
        = Except.ok [("metadata", Value.vObj md), (rn, Value.vList (R.map Value.vObj))]
      ∧ md = dictUpdate (defaultMetadata R.length rn) am
      ∧ (∀ k v, dictGet am k = some v → dictGet md k = some v)
      ∧ (∀ k, dictGet am k = none
          → dictGet md k = dictGet (defaultMetadata R.length rn) k) := by
  have hemp : am.isEmpty = false := by
    cases am with
    | nil => exact absurd rfl hne
    | cons p rest => rfl
  refine ⟨dictUpdate (defaultMetadata R.length rn) am, ?_, rfl,
    fun k v hk => dictGet_update_present am _ k v hnd hk,
    fun k hk => dictGet_update_absent am _ k hk⟩
  unfold api_response_handler
  rw [if_neg hv]
  simp only [coerceResults]
  rw [if_neg (by omega : ¬(R.length > limit))]
  simp [mergedMetadata, hemp, dictInsert, Ne.symm hmeta]

/-- Witness for C9: extra metadata overriding `count` and adding a fresh
key, on an empty record list of resource type `services`. -/
theorem c9_additional_metadata_merge_witness :
    (¬(("services" : String) = "" ∨ pyStrip "services" = ""))
    ∧ ("services" : String) ≠ "metadata"
    ∧ ([] : List Dict).length ≤ 500
    ∧ ([("count", Value.vStr "override"), ("region", Value.vStr "us")] : Dict) ≠ []
    ∧ (dictKeys [("count", Value.vStr "override"), ("region", Value.vStr "us")]).Nodup
    ∧ (∃ md, api_response_handler (ApiResults.many []) "services" 500
          (some [("count", Value.vStr "override"), ("region", Value.vStr "us")])
        = Except.ok [("metadata", Value.vObj md),
            ("services", Value.vList (([] : List Dict).map Value.vObj))]
      ∧ md = dictUpdate (defaultMetadata ([] : List Dict).length "services")
          [("count", Value.vStr "override"), ("region", Value.vStr "us")]
      ∧ (∀ k v, dictGet [("count", Value.vStr "override"), ("region", Value.vStr "us")] k = some v
          → dictGet md k = some v)
      ∧ (∀ k, dictGet [("count", Value.vStr "override"), ("region", Value.vStr "us")] k = none
          → dictGet md k = dictGet (defaultMetadata ([] : List Dict).length "services") k)) :=
  ⟨by decide, by decide, by decide, by simp, by decide,
   c9_additional_metadata_merge [] "services" 500
     [("count", Value.vStr "override"), ("region", Value.vStr "us")]
     (by decide) (by decide) (by decide) (by simp) (by decide)⟩

/-- Counterexample to C9 as stated: at the valid resource name
`"metadata"` with extra metadata `{"foo": 1}`, the claim demands the
returned metadata to contain `foo`, but the resource key overwrites the
metadata key and the returned envelope's `metadata` entry is the record
list, with no `foo` field. -/
theorem c9_counterexample :
    api_response_handler (ApiResults.many []) "metadata" 500
        (some [("foo", Value.vNat 1)])
      = Except.ok [("metadata", Value.vList [])]
    ∧ envMetadataGet [("metadata", Value.vList [])] "foo" = none :=
  ⟨rfl, rfl⟩

/-- C5: for every list of incident records on which the per-record field
accesses are well typed (no record makes the Python attribute accesses
raise, which is exactly `(autoresolvedFlag inc).isSome` and
`(noDataFlag inc).isSome`), `_calculate_incident_metadata` returns — never
an error — a structure whose `status_counts` contains exactly the three
keys `triggered`, `acknowledged`, `resolved`, each counting the records
whose `status` equals that key (other or missing statuses are ignored,
absent statuses default to 0); whose `autoresolve_count` counts records
with `status == "resolved"` and nested
`last_status_change_by.type == "service_reference"` (missing nested fields
default to the empty string and never match); and whose `no_data_count`
counts records whose title starts with `"No Data:"` (missing titles
default to the empty string).  At the empty list all five numbers are 0. -/
theorem c5_incident_metadata (incidents : List Dict)
    (hok : ∀ inc ∈ incidents, (autoresolvedFlag inc).isSome ∧ (noDataFlag inc).isSome) :
    _calculate_incident_metadata incidents
      = some [("status_counts", Value.vObj
           [("triggered", Value.vNat (incidents.countP (hasStatus "triggered"))),
            ("acknowledged", Value.vNat (incidents.countP (hasStatus "acknowledged"))),
            ("resolved", Value.vNat (incidents.countP (hasStatus "resolved")))]),
         ("autoresolve_count", Value.vNat (incidents.countP specAutoresolved)),
         ("no_data_count", Value.vNat (incidents.countP specNoData))] := by
  have hac : _count_autoresolved_incidents incidents
      = some (incidents.countP specAutoresolved) :=
    countFlags_eq_countP autoresolvedFlag specAutoresolved incidents
      (fun inc hi => autoresolvedFlag_eq_spec inc (hok inc hi).1)
  have hnd : _count_no_data_incidents incidents
      = some (incidents.countP specNoData) :=
    countFlags_eq_countP noDataFlag specNoData incidents
      (fun inc hi => noDataFlag_eq_spec inc (hok inc hi).2)
  cases incidents with
  | nil => rfl
  | cons inc rest =>
    unfold _calculate_incident_metadata
    rw [if_neg (by simp)]
    rw [hac, hnd]
    have hmap : VALID_STATUSES.map
        (fun s => (s, Value.vNat (getCount (_count_incident_statuses (inc :: rest)) s)))
      = [("triggered", Value.vNat ((inc :: rest).countP (hasStatus "triggered"))),
         ("acknowledged", Value.vNat ((inc :: rest).countP (hasStatus "acknowledged"))),
         ("resolved", Value.vNat ((inc :: rest).countP (hasStatus "resolved")))] := by
      rw [show VALID_STATUSES = ["triggered", "acknowledged", "resolved"] from rfl]
      rw [List.map_cons, List.map_cons, List.map_cons, List.map_nil]
      rw [getCount_statuses _ "triggered" (by decide),
        getCount_statuses _ "acknowledged" (by decide),
        getCount_statuses _ "resolved" (by decide)]
    simp only [hmap]

/-- Witness for C5: three records — one autoresolved, one triggered, one
with an unknown status and a "No Data:" title. -/
theorem c5_incident_metadata_witness :
    (∀ inc ∈ ([[("status", Value.vStr "resolved"),
          ("last_status_change_by", Value.vObj [("type", Value.vStr "service_reference")]),
          ("title", Value.vStr "ok")],
        [("status", Value.vStr "triggered")],
        [("status", Value.vStr "weird"), ("title", Value.vStr "No Data: disk")]] : List Dict),
      (autoresolvedFlag inc).isSome ∧ (noDataFlag inc).isSome)
    ∧ _calculate_incident_metadata
        [[("status", Value.vStr "resolved"),
          ("last_status_change_by", Value.vObj [("type", Value.vStr "service_reference")]),
          ("title", Value.vStr "ok")],
         [("status", Value.vStr "triggered")],
         [("status", Value.vStr "weird"), ("title", Value.vStr "No Data: disk")]]
      = some [("status_counts", Value.vObj
           [("triggered", Value.vNat (([[("status", Value.vStr "resolved"),
              ("last_status_change_by", Value.vObj [("type", Value.vStr "service_reference")]),
              ("title", Value.vStr "ok")],
             [("status", Value.vStr "triggered")],
             [("status", Value.vStr "weird"), ("title", Value.vStr "No Data: disk")]] : List Dict).countP (hasStatus "triggered"))),
            ("acknowledged", Value.vNat (([[("status", Value.vStr "resolved"),
              ("last_status_change_by", Value.vObj [("type", Value.vStr "service_reference")]),
              ("title", Value.vStr "ok")],
             [("status", Value.vStr "triggered")],
             [("status", Value.vStr "weird"), ("title", Value.vStr "No Data: disk")]] : List Dict).countP (hasStatus "acknowledged"))),
            ("resolved", Value.vNat (([[("status", Value.vStr "resolved"),
              ("last_status_change_by", Value.vObj [("type", Value.vStr "service_reference")]),
              ("title", Value.vStr "ok")],
             [("status", Value.vStr "triggered")],
             [("status", Value.vStr "weird"), ("title", Value.vStr "No Data: disk")]] : List Dict).countP (hasStatus "resolved")))]),
         ("autoresolve_count", Value.vNat (([[("status", Value.vStr "resolved"),
            ("last_status_change_by", Value.vObj [("type", Value.vStr "service_reference")]),
            ("title", Value.vStr "ok")],
           [("status", Value.vStr "triggered")],
           [("status", Value.vStr "weird"), ("title", Value.vStr "No Data: disk")]] : List Dict).countP specAutoresolved)),
         ("no_data_count", Value.vNat (([[("status", Value.vStr "resolved"),
            ("last_status_change_by", Value.vObj [("type", Value.vStr "service_reference")]),
            ("title", Value.vStr "ok")],
           [("status", Value.vStr "triggered")],
           [("status", Value.vStr "weird"), ("title", Value.vStr "No Data: disk")]] : List Dict).countP specNoData))] :=
  ⟨by decide,
   c5_incident_metadata
     [[("status", Value.vStr "resolved"),
       ("last_status_change_by", Value.vObj [("type", Value.vStr "service_reference")]),
       ("title", Value.vStr "ok")],
      [("status", Value.vStr "triggered")],
      [("status", Value.vStr "weird"), ("title", Value.vStr "No Data: disk")]]
     (by decide)⟩

/-- C6: for every input string that fully matches the relative-time
pattern `(\d+)\s+(hour|minute)s?\s+ago` (case-insensitively) with value
`v` and unit `u`, the parser returns the `isoformat()` rendering of
`now (UTC)` minus `v` hours (resp. minutes), expressed in the fixed UTC-7
offset — a constant shift, with no daylight-saving adjustment — and the
formatted string carries that fixed offset as its `-07:00` suffix. -/
theorem c6_relative_time_conversion (nowUS : Int) (s : String) (v : Nat)
    (u : TimeUnit) (h : matchRel s = some (v, u)) :
    try_convert_relative_time_to_pdt_iso nowUS (some s)
      = some (isoLocalPart (nowUS - (v : Int) * unitMicros u) (-420) ++ "-07:00") := by
  have hne : s ≠ "" := by
    intro he
    rw [he, show matchRel "" = none from rfl] at h
    exact Option.noConfusion h
  rw [try_convert_some_eq, if_neg hne, h]
  rfl

/-- Witness for C6: "2 hours ago" at a concrete instant, with the
concrete rendered timestamp. -/
theorem c6_relative_time_conversion_witness :
    matchRel "2 hours ago" = some (2, TimeUnit.hour)
    ∧ try_convert_relative_time_to_pdt_iso 1758000000000000 (some "2 hours ago")
        = some (isoLocalPart (1758000000000000 - (2 : Int) * unitMicros TimeUnit.hour) (-420)
            ++ "-07:00")
    ∧ isoLocalPart (1758000000000000 - (2 : Int) * unitMicros TimeUnit.hour) (-420)
        ++ "-07:00" = "2025-09-15T20:20:00-07:00" :=
  ⟨rfl,
   c6_relative_time_conversion 1758000000000000 "2 hours ago" 2 TimeUnit.hour rfl,
   rfl⟩

/-- C7: the relative-time parser is the identity on every input that does
not match the relative-time pattern: `None` comes back as `None`, the
empty string as the empty string, and every non-matching string is
returned unchanged. -/
theorem c7_identity_on_no_match (nowUS : Int) (t : Option String)
    (h : ∀ s, t = some s → matchRel s = none) :
    try_convert_relative_time_to_pdt_iso nowUS t = t := by
  cases t with
  | none => rfl
  | some s =>
    by_cases he : s = ""
    · rw [he]
      rfl
    · rw [try_convert_some_eq, if_neg he, h s rfl]

/-- Witness for C7: `None`, the empty string, an absolute timestamp and a
free-text phrase all pass through unchanged. -/
theorem c7_identity_on_no_match_witness :
    try_convert_relative_time_to_pdt_iso 0 none = none
    ∧ try_convert_relative_time_to_pdt_iso 0 (some "") = some ""
    ∧ try_convert_relative_time_to_pdt_iso 0 (some "2024-01-01T00:00:00Z")
        = some "2024-01-01T00:00:00Z"
    ∧ try_convert_relative_time_to_pdt_iso 0 (some "next tuesday") = some "next tuesday" :=
  ⟨c7_identity_on_no_match 0 none (fun s hs => Option.noConfusion hs),
   c7_identity_on_no_match 0 (some "")
     (fun s hs => by injection hs with h2; rw [← h2]; rfl),
   c7_identity_on_no_match 0 (some "2024-01-01T00:00:00Z")
     (fun s hs => by injection hs with h2; rw [← h2]; rfl),
   c7_identity_on_no_match 0 (some "next tuesday")
     (fun s hs => by injection hs with h2; rw [← h2]; rfl)⟩

/-- C4 (amended): `handle_api_error` logs the full available error detail
(the attached response text when present, else `str(e)`) and re-raises the
original exception unchanged; the tools that route upstream failures
through it therefore propagate them.  `list_services`, however, does not:
it catches every exception raised inside its `try` block and returns a
structured error envelope, so it never re-raises — every call returns
normally. -/
theorem c4_error_propagation :
    (∀ e : PyExn, handle_api_error e = (errorDetail e, Except.error e))
    ∧ (∀ e : PyExn, list_services (Except.error e)
        = Except.ok (listServicesErrorEnvelope e))
    ∧ (∀ fetchParsed : Except PyExn (List Dict),
        ∃ env, list_services fetchParsed = Except.ok env) := by
  refine ⟨fun e => rfl, fun e => rfl, fun fetchParsed => ?_⟩
  cases fetchParsed with
  | error e => exact ⟨listServicesErrorEnvelope e, rfl⟩
  | ok parsed =>
    cases h : api_response_handler (ApiResults.many parsed) "services" RESPONSE_LIMIT none with
    | ok env => exact ⟨env, by simp [list_services, h]⟩
    | error m =>
      exact ⟨listServicesErrorEnvelope (PyExn.mk "ValidationError" m none),
        by simp [list_services, h]⟩

/-- Counterexample to C4 as stated: an upstream `HTTPError` raised during
the `list_services` tool call is not re-raised unchanged — the call
returns a normal envelope wrapping the error. -/
theorem c4_counterexample :
    list_services (Except.error (PyExn.mk "HTTPError" "boom" none))
      = Except.ok (listServicesErrorEnvelope (PyExn.mk "HTTPError" "boom" none))
    ∧ list_services (Except.error (PyExn.mk "HTTPError" "boom" none))
        ≠ Except.error (PyExn.mk "HTTPError" "boom" none) :=
  ⟨rfl, fun hcontra => Except.noConfusion hcontra⟩

end EagleEye
